import Mathlib

/-!
Shallow embedding of the `GateIoWebSocketClient` from the DTrader Crypto 11
repository (the authenticated balance-aware variant; the simple ping-pong
variant shares the correlator code verbatim).  Session state, the pending
request table, the reconnect/backoff machinery and the message dispatcher
are translated directly from the TypeScript source; timers are modelled as
explicit events delivered to the corresponding handler functions, and the
wall clock is an explicit `now : Int` parameter (milliseconds, as
`Date.now()`).
-/

namespace DTrader

/-- An inbound JSON frame's `error` object: `{code, message}`. -/
structure ApiErr where
  code : Int
  message : String
  deriving DecidableEq, Repr

/-- One per-currency entry of a balance-update array. -/
structure BalanceEntry where
  currency : String
  available : Option String
  locked : Option String
  change_type : Option String
  deriving DecidableEq, Repr

/-- The shapes taken by an inbound frame's `result` field. -/
inductive RVal where
  | s (v : String)
  | balanceArr (xs : List BalanceEntry)
  | nonArray (descr : String)
  deriving DecidableEq, Repr

/-- An inbound JSON frame; absent fields are `none` (JS `undefined`). -/
structure Frame where
  id : Option Nat
  result : Option RVal
  error : Option ApiErr
  channel : Option String
  event : Option String
  method : Option String
  deriving DecidableEq, Repr

/-- Errors a pending waiter can be rejected with (the `Error` objects built
in the source). -/
inductive ClientError where
  | apiError (msg : String)
  | pongTimeout (id : Nat)
  | connectionLost
  | closedByUser
  deriving DecidableEq, Repr

/-- The value a waiter resolves with: the `{latency, timestamp}` record for
pong frames, or the frame's raw `result` for other correlated responses. -/
inductive ResolveVal where
  | latencyRec (latency : Int) (timestamp : Int)
  | res (v : Option RVal)
  deriving DecidableEq, Repr

/-- Completion of a waiter: resolve or reject. -/
inductive Completion where
  | resolved (v : ResolveVal)
  | rejected (e : ClientError)
  deriving DecidableEq, Repr

/-- Outbound frames produced by the client. -/
inductive OutFrame where
  | ping (id : Nat)
  | pong (id : Nat)
  deriving DecidableEq, Repr

/-- The pending-request table (`Map<number, {resolve, reject, timestamp}>`);
an insertion-ordered association list from request id to issue timestamp,
as a JS `Map`. -/
abbrev PendingMap := List (Nat × Int)

/-- `Map.get` on the pending table (only the stored timestamp matters in
the model; the resolve/reject callbacks are represented by emitting
`Completion` values keyed by the id). -/
def lookupPending : PendingMap → Nat → Option Int
  | [], _ => none
  | p :: ps, i => if p.1 = i then some p.2 else lookupPending ps i

/-- `Map.delete`. -/
def erasePending : PendingMap → Nat → PendingMap
  | [], _ => []
  | p :: ps, i => if p.1 = i then erasePending ps i else p :: erasePending ps i

/-- `Map.set`: update in place if the key exists, else append. -/
def insertPending : PendingMap → Nat → Int → PendingMap
  | [], i, ts => [(i, ts)]
  | p :: ps, i, ts => if p.1 = i then (i, ts) :: ps else p :: insertPending ps i ts

/-- `maxReconnectAttempts` field (constant 10 in the source). -/
def maxReconnectAttempts : Nat := 10

/-- `reconnectDelay` field: base backoff delay, 1000 ms. -/
def reconnectDelay : ℚ := 1000

/-- `maxReconnectDelay` field: backoff cap, 30000 ms. -/
def maxReconnectDelay : ℚ := 30000

/-- The mutable fields of `GateIoWebSocketClient`.  Timer handles are
booleans / an `Option` holding the armed delay; the socket handle itself is
abstracted away (`isConnected` tracks it). -/
structure ClientState where
  isConnected : Bool
  isAuthenticated : Bool
  requestId : Nat
  pending : PendingMap
  reconnectAttempts : Nat
  isReconnecting : Bool
  /-- `reconnectInterval` handle: `some d` when a reconnect timer with
  delay `d` ms is armed. -/
  reconnectTimer : Option ℚ
  pingTimerOn : Bool
  balanceTimerOn : Bool
  lastConnectionTime : Int
  deriving DecidableEq, Repr

/-- Field initialisers of the class. -/
def initState : ClientState :=
  { isConnected := false
    isAuthenticated := false
    requestId := 1
    pending := []
    reconnectAttempts := 0
    isReconnecting := false
    reconnectTimer := none
    pingTimerOn := false
    balanceTimerOn := false
    lastConnectionTime := 0 }

/-- `scheduleReconnect()`: guarded by `isReconnecting ||
reconnectAttempts >= maxReconnectAttempts`; otherwise sets
`isReconnecting`, increments the counter, and arms the timer with
`Math.min(reconnectDelay * Math.pow(1.5, reconnectAttempts - 1),
maxReconnectDelay)` (the counter already incremented). -/
def scheduleReconnect (s : ClientState) : ClientState :=
  if s.isReconnecting = true ∨ s.reconnectAttempts ≥ maxReconnectAttempts then s
  else
    let attempts := s.reconnectAttempts + 1
    { s with
      isReconnecting := true
      reconnectAttempts := attempts
      reconnectTimer :=
        some (min (reconnectDelay * (3 / 2 : ℚ) ^ (attempts - 1)) maxReconnectDelay) }

/-- `stopReconnection()`: clears the reconnect timer, resets
`isReconnecting` and pins the counter at the maximum. -/
def stopReconnection (s : ClientState) : ClientState :=
  { s with
    reconnectTimer := none
    isReconnecting := false
    reconnectAttempts := maxReconnectAttempts }

/-- `stopIntervals()`. -/
def stopIntervals (s : ClientState) : ClientState :=
  { s with pingTimerOn := false, balanceTimerOn := false }

/-- Result record of `getReconnectStatus()`. -/
structure ReconnectStatus where
  attempts : Nat
  maxAttempts : Nat
  reconnecting : Bool
  deriving DecidableEq, Repr

/-- `getReconnectStatus()`. -/
def getReconnectStatus (s : ClientState) : ReconnectStatus :=
  { attempts := s.reconnectAttempts
    maxAttempts := maxReconnectAttempts
    reconnecting := s.isReconnecting }

/-- Result record of `getConnectionStatus()`. -/
structure ConnectionStatus where
  connected : Bool
  authenticated : Bool
  reconnecting : Bool
  deriving DecidableEq, Repr

/-- `getConnectionStatus()`. -/
def getConnectionStatus (s : ClientState) : ConnectionStatus :=
  { connected := s.isConnected
    authenticated := s.isAuthenticated
    reconnecting := s.isReconnecting }

/-- `rejectAllPendingRequests(error)`: rejects every pending waiter with
the given error and clears the table. -/
def rejectAllPendingRequests (s : ClientState) (e : ClientError) :
    ClientState × List (Nat × Completion) :=
  ({ s with pending := [] }, s.pending.map (fun p => (p.1, Completion.rejected e)))

/-- The socket `open` handler body: clears the connect-timeout guard,
marks connected, resets the reconnect machinery and records the
connection time. -/
def onOpen (s : ClientState) (now : Int) : ClientState :=
  { s with
    isConnected := true
    isReconnecting := false
    reconnectAttempts := 0
    lastConnectionTime := now }

/-- `handleDisconnection()` (socket close/error handler): drops connected
and authenticated flags, stops the keepalive intervals, rejects all
pending requests with a connection-lost error, and schedules a reconnect
unless one is already in progress. -/
def handleDisconnection (s : ClientState) : ClientState × List (Nat × Completion) :=
  let s1 := stopIntervals { s with isConnected := false, isAuthenticated := false }
  let r := rejectAllPendingRequests s1 ClientError.connectionLost
  (if r.1.isReconnecting = false then scheduleReconnect r.1 else r.1, r.2)

/-- `sendPing()`: when connected, registers a pending entry under the
current `requestId`, transmits the ping frame carrying that id, and
increments `requestId`.  (When not connected the source throws before
touching any state.)  The 10-second pong timeout armed here is modelled
separately by `pongTimeoutFire`, because its callback reads the
`requestId` field at fire time, not the id the ping was sent with. -/
def sendPing (s : ClientState) (now : Int) : ClientState × Option OutFrame :=
  if s.isConnected = false then (s, none)
  else
    ({ s with
        pending := insertPending s.pending s.requestId now
        requestId := s.requestId + 1 },
      some (OutFrame.ping s.requestId))

/-- The body of the `setTimeout` callback armed in `sendPing`, executed
against the state at fire time: `if (pendingRequests.has(this.requestId))
{ delete it; reject with a pong-timeout error }`.  Note that it consults
`this.requestId` — the field, already incremented past the sent id — not
the id of the ping whose timeout it is. -/
def pongTimeoutFire (s : ClientState) : ClientState × Option (Nat × Completion) :=
  if (lookupPending s.pending s.requestId).isSome then
    ({ s with pending := erasePending s.pending s.requestId },
      some (s.requestId, Completion.rejected (ClientError.pongTimeout s.requestId)))
  else (s, none)

/-- Decimal core of the JS `parseFloat` builtin used on the balance
strings: optional sign, integer digits, optional fractional digits,
trailing non-numeric characters ignored; `none` models `NaN` (no leading
numeric part).  Exponent notation is outside the protocol's balance
strings and is not modelled.  Values are exact rationals. -/
def parseDecimal (str : String) : Option ℚ :=
  let cs := str.data.dropWhile (fun c => c = ' ')
  let sgn : ℚ × List Char :=
    match cs with
    | '-' :: rest => (-1, rest)
    | '+' :: rest => (1, rest)
    | _ => (1, cs)
  let ip := sgn.2.takeWhile Char.isDigit
  let rest := sgn.2.dropWhile Char.isDigit
  let digitsVal : List Char → Nat := fun ds => ds.foldl (fun a c => a * 10 + (c.toNat - 48)) 0
  match rest with
  | '.' :: rest2 =>
    let fp := rest2.takeWhile Char.isDigit
    if ip.isEmpty ∧ fp.isEmpty then none
    else some (sgn.1 * ((digitsVal ip : ℚ) + (digitsVal fp : ℚ) / (10 : ℚ) ^ fp.length))
  | _ => if ip.isEmpty then none else some (sgn.1 * (digitsVal ip : ℚ))

/-- `usdtBalance.available || "0"`: JS falsy fallback (absent field or
empty string falls back to `"0"`). -/
def fieldOr0 : Option String → String
  | none => "0"
  | some v => if v = "" then "0" else v

/-- Observation produced by `handleBalanceUpdate` (the function only
logs; it throws nothing and touches no session state).  `none` inside
`usdtFound` models a `NaN` parse. -/
inductive BalanceReport where
  | usdtFound (available locked total : Option ℚ) (changeType : Option String)
  | usdtNotFound (currencies : List String)
  | unexpectedFormat
  deriving DecidableEq, Repr

/-- `handleBalanceUpdate(balanceData)`: on an array, finds the first
entry with `currency === "USDT"`, parses its `available`/`locked` fields
and sums them; reports the currency list when USDT is absent; reports the
unexpected format otherwise. -/
def handleBalanceUpdate (balanceData : Option RVal) : BalanceReport :=
  match balanceData with
  | some (RVal.balanceArr xs) =>
    match xs.find? (fun item => item.currency = "USDT") with
    | some usdtBalance =>
      let available := parseDecimal (fieldOr0 usdtBalance.available)
      let locked := parseDecimal (fieldOr0 usdtBalance.locked)
      let total :=
        match available, locked with
        | some a, some l => some (a + l)
        | _, _ => none
      BalanceReport.usdtFound available locked total usdtBalance.change_type
    | none => BalanceReport.usdtNotFound (xs.map (fun item => item.currency))
  | _ => BalanceReport.unexpectedFormat

/-- Observable effects of one `handleMessage` call. -/
structure Effects where
  completions : List (Nat × Completion)
  balanceReport : Option BalanceReport
  outbound : Option OutFrame
  deriving DecidableEq, Repr

/-- Effects of a branch that completes no waiter and sends nothing. -/
def emptyEffects : Effects :=
  { completions := [], balanceReport := none, outbound := none }

/-- JS truthiness of `message.id` (`0` is falsy). -/
def truthyId (m : Frame) : Option Nat :=
  match m.id with
  | some i => if i = 0 then none else some i
  | none => none

/-- The combined guard of the two correlator branches: a truthy
`message.id` present in the pending table, together with the stored
issue timestamp. -/
def matchPending (s : ClientState) (m : Frame) : Option (Nat × Int) :=
  match truthyId m with
  | some i => (lookupPending s.pending i).map (fun ts => (i, ts))
  | none => none

/-- `sendPong(pingId)`: transmits `{id, result: "pong"}` when connected,
otherwise does nothing. -/
def sendPong (s : ClientState) (pingId : Nat) : Option OutFrame :=
  if s.isConnected = false then none else some (OutFrame.pong pingId)

/-- Branches of `handleMessage` reached by frames that match no pending
entry: balance updates, subscribe acks (including the fatal
credential-failure path `error.code === 1` → `stopReconnection`), and
exchange-initiated pings. -/
def handleUncorrelated (s : ClientState) (m : Frame) : ClientState × Effects :=
  if m.channel = some "spot.balances" ∧ m.event = some "update" then
    (s, { emptyEffects with balanceReport := some (handleBalanceUpdate m.result) })
  else if m.channel = some "spot.balances" ∧ m.event = some "subscribe" then
    match m.error with
    | some e =>
      let s1 := { s with isAuthenticated := false }
      (if e.code = 1 then stopReconnection s1 else s1, emptyEffects)
    | none => ({ s with isAuthenticated := true }, emptyEffects)
  else if m.method = some "server.ping" ∧ (truthyId m).isSome then
    (s, { emptyEffects with outbound := sendPong s ((truthyId m).getD 0) })
  else (s, emptyEffects)

/-- `handleMessage(message)`: pong resolution, generic correlated
resolution/rejection, then the uncorrelated branches.  `now` is the value
`Date.now()` would return during the call. -/
def handleMessage (s : ClientState) (m : Frame) (now : Int) : ClientState × Effects :=
  match matchPending s m with
  | some (i, ts) =>
    if m.result = some (RVal.s "pong") then
      ({ s with pending := erasePending s.pending i },
        { emptyEffects with
          completions := [(i, Completion.resolved (ResolveVal.latencyRec (now - ts) now))] })
    else
      match m.error with
      | some e =>
        ({ s with pending := erasePending s.pending i },
          { emptyEffects with
            completions := [(i, Completion.rejected (ClientError.apiError e.message))] })
      | none =>
        ({ s with pending := erasePending s.pending i },
          { emptyEffects with
            completions := [(i, Completion.resolved (ResolveVal.res m.result))] })
  | none => handleUncorrelated s m

/-- Sequential delivery of inbound frames, accumulating every waiter
completion in delivery order. -/
def processFrames : ClientState → List (Frame × Int) → ClientState × List (Nat × Completion)
  | s, [] => (s, [])
  | s, fi :: fs =>
    let r := handleMessage s fi.1 fi.2
    let rest := processFrames r.1 fs
    (rest.1, r.2.completions ++ rest.2)

/-- The synchronous body of `close()`: `stopIntervals`,
`stopReconnection`, reject all pending requests with the
closed-by-caller error, then request transport close. -/
def closeRequest (s : ClientState) : ClientState × List (Nat × Completion) :=
  rejectAllPendingRequests (stopReconnection (stopIntervals s)) ClientError.closedByUser

/-- State once `close()` resolves: the transport close confirmation also
fires the session's close handler (`handleDisconnection`), whose
reconnect scheduling is inert because `stopReconnection` pinned the
attempt counter. -/
def closeResolved (s : ClientState) : ClientState × List (Nat × Completion) :=
  let r1 := closeRequest s
  let r2 := handleDisconnection r1.1
  (r2.1, r1.2 ++ r2.2)

/-- The events that drive the session state machine: inbound frames,
transport drops, failed connection attempts (connect-timeout guard or the
reconnect timer's catch, both of which call `scheduleReconnect`),
successful opens, `close()` calls, ping sends and pong-timeout firings. -/
inductive REv where
  | frameMsg (f : Frame) (now : Int)
  | transportDrop
  | connectFail
  | openOk (now : Int)
  | closeCall
  | pingSend (now : Int)
  | pongTimerFire
  deriving DecidableEq, Repr

/-- Whether an event is a successful transport open. -/
def REv.isOpen : REv → Bool
  | .openOk _ => true
  | _ => false

/-- One step of the session state machine. -/
def stepR (s : ClientState) : REv → ClientState
  | .frameMsg f now => (handleMessage s f now).1
  | .transportDrop => (handleDisconnection s).1
  | .connectFail => scheduleReconnect s
  | .openOk now => onOpen s now
  | .closeCall => (closeRequest s).1
  | .pingSend now => (sendPing s now).1
  | .pongTimerFire => (pongTimeoutFire s).1

/-- Runs a list of events from a state. -/
def runR (evs : List REv) (s : ClientState) : ClientState :=
  evs.foldl stepR s

/-- The subscribe-acknowledgement frame for the balance channel carrying
an error object. -/
def subAckErrFrame (code : Int) (emsg : String) : Frame :=
  { id := none, result := none, error := some { code := code, message := emsg }
    channel := some "spot.balances", event := some "subscribe", method := none }

/-!
The source signs subscription requests with
`crypto.createHmac("sha512", apiSecret).update(message).digest("hex")`.
The HMAC-SHA512 algorithm (FIPS 198-1 over FIPS 180-4 SHA-512) is
embedded below, byte-wise over `List Nat` (each byte `< 256`) with 64-bit
words as `Nat` reduced modulo `2 ^ 64`.
-/

/-- Truncation to a 64-bit word. -/
def w64 (n : Nat) : Nat := n % 2 ^ 64

/-- 64-bit modular addition. -/
def add64 (a b : Nat) : Nat := w64 (a + b)

/-- 64-bit right rotation. -/
def rotr64 (x n : Nat) : Nat := w64 ((x >>> n) ||| (x <<< (64 - n)))

/-- Three-way xor. -/
def xor3 (a b c : Nat) : Nat := Nat.xor (Nat.xor a b) c

/-- SHA-512 Σ0. -/
def bigSigma0 (x : Nat) : Nat := xor3 (rotr64 x 28) (rotr64 x 34) (rotr64 x 39)

/-- SHA-512 Σ1. -/
def bigSigma1 (x : Nat) : Nat := xor3 (rotr64 x 14) (rotr64 x 18) (rotr64 x 41)

/-- SHA-512 σ0. -/
def smallSigma0 (x : Nat) : Nat := xor3 (rotr64 x 1) (rotr64 x 8) (x >>> 7)

/-- SHA-512 σ1. -/
def smallSigma1 (x : Nat) : Nat := xor3 (rotr64 x 19) (rotr64 x 61) (x >>> 6)

/-- SHA-2 choice function (the complement is the xor with the 64-bit
mask). -/
def chF (x y z : Nat) : Nat :=
  Nat.xor (Nat.land x y) (Nat.land (Nat.xor x (2 ^ 64 - 1)) z)

/-- SHA-2 majority function. -/
def majF (x y z : Nat) : Nat :=
  xor3 (Nat.land x y) (Nat.land x z) (Nat.land y z)

/-- Assembles a 64-bit word from its 32-bit halves. -/
def w32x2 (hi lo : Nat) : Nat := hi * 2 ^ 32 + lo

/-- The 80 SHA-512 round constants (FIPS 180-4 §4.2.3), written as
32-bit half pairs. -/
def sha512K : List Nat :=
  [ w32x2 0x428a2f98 0xd728ae22, w32x2 0x71374491 0x23ef65cd,
    w32x2 0xb5c0fbcf 0xec4d3b2f, w32x2 0xe9b5dba5 0x8189dbbc,
    w32x2 0x3956c25b 0xf348b538, w32x2 0x59f111f1 0xb605d019,
    w32x2 0x923f82a4 0xaf194f9b, w32x2 0xab1c5ed5 0xda6d8118,
    w32x2 0xd807aa98 0xa3030242, w32x2 0x12835b01 0x45706fbe,
    w32x2 0x243185be 0x4ee4b28c, w32x2 0x550c7dc3 0xd5ffb4e2,
    w32x2 0x72be5d74 0xf27b896f, w32x2 0x80deb1fe 0x3b1696b1,
    w32x2 0x9bdc06a7 0x25c71235, w32x2 0xc19bf174 0xcf692694,
    w32x2 0xe49b69c1 0x9ef14ad2, w32x2 0xefbe4786 0x384f25e3,
    w32x2 0x0fc19dc6 0x8b8cd5b5, w32x2 0x240ca1cc 0x77ac9c65,
    w32x2 0x2de92c6f 0x592b0275, w32x2 0x4a7484aa 0x6ea6e483,
    w32x2 0x5cb0a9dc 0xbd41fbd4, w32x2 0x76f988da 0x831153b5,
    w32x2 0x983e5152 0xee66dfab, w32x2 0xa831c66d 0x2db43210,
    w32x2 0xb00327c8 0x98fb213f, w32x2 0xbf597fc7 0xbeef0ee4,
    w32x2 0xc6e00bf3 0x3da88fc2, w32x2 0xd5a79147 0x930aa725,
    w32x2 0x06ca6351 0xe003826f, w32x2 0x14292967 0x0a0e6e70,
    w32x2 0x27b70a85 0x46d22ffc, w32x2 0x2e1b2138 0x5c26c926,
    w32x2 0x4d2c6dfc 0x5ac42aed, w32x2 0x53380d13 0x9d95b3df,
    w32x2 0x650a7354 0x8baf63de, w32x2 0x766a0abb 0x3c77b2a8,
    w32x2 0x81c2c92e 0x47edaee6, w32x2 0x92722c85 0x1482353b,
    w32x2 0xa2bfe8a1 0x4cf10364, w32x2 0xa81a664b 0xbc423001,
    w32x2 0xc24b8b70 0xd0f89791, w32x2 0xc76c51a3 0x0654be30,
    w32x2 0xd192e819 0xd6ef5218, w32x2 0xd6990624 0x5565a910,
    w32x2 0xf40e3585 0x5771202a, w32x2 0x106aa070 0x32bbd1b8,
    w32x2 0x19a4c116 0xb8d2d0c8, w32x2 0x1e376c08 0x5141ab53,
    w32x2 0x2748774c 0xdf8eeb99, w32x2 0x34b0bcb5 0xe19b48a8,
    w32x2 0x391c0cb3 0xc5c95a63, w32x2 0x4ed8aa4a 0xe3418acb,
    w32x2 0x5b9cca4f 0x7763e373, w32x2 0x682e6ff3 0xd6b2b8a3,
    w32x2 0x748f82ee 0x5defb2fc, w32x2 0x78a5636f 0x43172f60,
    w32x2 0x84c87814 0xa1f0ab72, w32x2 0x8cc70208 0x1a6439ec,
    w32x2 0x90befffa 0x23631e28, w32x2 0xa4506ceb 0xde82bde9,
    w32x2 0xbef9a3f7 0xb2c67915, w32x2 0xc67178f2 0xe372532b,
    w32x2 0xca273ece 0xea26619c, w32x2 0xd186b8c7 0x21c0c207,
    w32x2 0xeada7dd6 0xcde0eb1e, w32x2 0xf57d4f7f 0xee6ed178,
    w32x2 0x06f067aa 0x72176fba, w32x2 0x0a637dc5 0xa2c898a6,
    w32x2 0x113f9804 0xbef90dae, w32x2 0x1b710b35 0x131c471b,
    w32x2 0x28db77f5 0x23047d84, w32x2 0x32caab7b 0x40c72493,
    w32x2 0x3c9ebe0a 0x15c9bebc, w32x2 0x431d67c4 0x9c100d4c,
    w32x2 0x4cc5d4be 0xcb3e42b6, w32x2 0x597f299c 0xfc657e2a,
    w32x2 0x5fcb6fab 0x3ad6faec, w32x2 0x6c44198c 0x4a475817 ]

/-- The eight SHA-512 initial hash words (FIPS 180-4 §5.3.5), written
as 32-bit half pairs. -/
def sha512H0 : List Nat :=
  [ w32x2 0x6a09e667 0xf3bcc908, w32x2 0xbb67ae85 0x84caa73b,
    w32x2 0x3c6ef372 0xfe94f82b, w32x2 0xa54ff53a 0x5f1d36f1,
    w32x2 0x510e527f 0xade682d1, w32x2 0x9b05688c 0x2b3e6c1f,
    w32x2 0x1f83d9ab 0xfb41bd6b, w32x2 0x5be0cd19 0x137e2179 ]

/-- The eight working variables of the compression function. -/
structure Sha8 where
  a : Nat
  b : Nat
  c : Nat
  d : Nat
  e : Nat
  f : Nat
  g : Nat
  h : Nat
  deriving DecidableEq, Repr

/-- Big-endian byte serialisation (`k` bytes) of a number. -/
def beBytes (n k : Nat) : List Nat :=
  (List.range k).map (fun i => (n >>> (8 * (k - 1 - i))) % 256)

/-- Big-endian word value of a byte list. -/
def bytesToWord (bs : List Nat) : Nat :=
  bs.foldl (fun acc b => acc * 256 + b) 0

/-- Splits a list into chunks of `n` (fuel-based structural recursion). -/
def chunksF : Nat → Nat → List α → List (List α)
  | 0, _, _ => []
  | _ + 1, _, [] => []
  | fuel + 1, n, l => l.take n :: chunksF fuel n (l.drop n)

/-- Splits a list into chunks of `n`. -/
def chunksOf (n : Nat) (l : List α) : List (List α) :=
  chunksF l.length n l

/-- Extends the 16-word message block by `fuel` scheduled words. -/
def extendW : Nat → List Nat → List Nat
  | 0, w => w
  | fuel + 1, w =>
    let nw :=
      add64 (add64 (smallSigma1 (w.getD (w.length - 2) 0)) (w.getD (w.length - 7) 0))
        (add64 (smallSigma0 (w.getD (w.length - 15) 0)) (w.getD (w.length - 16) 0))
    extendW fuel (w ++ [nw])

/-- One compression round; `kw` pairs the round constant with the
scheduled word. -/
def sha512Round (s : Sha8) (kw : Nat × Nat) : Sha8 :=
  let t1 := add64 s.h (add64 (bigSigma1 s.e) (add64 (chF s.e s.f s.g) (add64 kw.1 kw.2)))
  let t2 := add64 (bigSigma0 s.a) (majF s.a s.b s.c)
  { a := add64 t1 t2, b := s.a, c := s.b, d := s.c
    e := add64 s.d t1, f := s.e, g := s.f, h := s.g }

/-- Compresses one 16-word block into the chaining state. -/
def sha512Block (hc : Sha8) (block : List Nat) : Sha8 :=
  let w := extendW 64 block
  let s := (w.zip sha512K).foldl sha512Round hc
  { a := add64 hc.a s.a, b := add64 hc.b s.b, c := add64 hc.c s.c, d := add64 hc.d s.d
    e := add64 hc.e s.e, f := add64 hc.f s.f, g := add64 hc.g s.g, h := add64 hc.h s.h }

/-- SHA-512 padding: `0x80`, zeros, and the 128-bit big-endian bit
length, to a multiple of 128 bytes. -/
def sha512Pad (msg : List Nat) : List Nat :=
  let l := msg.length
  msg ++ [0x80] ++ List.replicate ((128 - (l + 17) % 128) % 128) 0 ++ beBytes (8 * l) 16

/-- SHA-512 of a byte list, as the 64 digest bytes. -/
def sha512 (msg : List Nat) : List Nat :=
  let blocks := chunksOf 16 ((chunksOf 8 (sha512Pad msg)).map bytesToWord)
  let h0 : Sha8 :=
    { a := sha512H0.getD 0 0, b := sha512H0.getD 1 0, c := sha512H0.getD 2 0
      d := sha512H0.getD 3 0, e := sha512H0.getD 4 0, f := sha512H0.getD 5 0
      g := sha512H0.getD 6 0, h := sha512H0.getD 7 0 }
  let hf := blocks.foldl sha512Block h0
  [hf.a, hf.b, hf.c, hf.d, hf.e, hf.f, hf.g, hf.h].flatMap (fun w => beBytes w 8)

/-- HMAC-SHA512 (FIPS 198-1): block size 128 bytes, inner pad `0x36`,
outer pad `0x5c`. -/
def hmacSha512 (key msg : List Nat) : List Nat :=
  let k0 := if key.length > 128 then sha512 key else key
  let k1 := k0 ++ List.replicate (128 - k0.length) 0
  sha512 ((k1.map (Nat.xor 0x5c)) ++ sha512 ((k1.map (Nat.xor 0x36)) ++ msg))

/-- The lowercase hexadecimal alphabet. -/
def hexAlphabet : List Char := "0123456789abcdef".data

/-- Lowercase hexadecimal digit. -/
def hexDigit (d : Nat) : Char :=
  if d < 10 then Char.ofNat (48 + d) else Char.ofNat (87 + d)

/-- Lowercase hex encoding of a byte list (`digest("hex")`). -/
def hexLower (bs : List Nat) : String :=
  String.mk (bs.flatMap (fun b => [hexDigit (b / 16 % 16), hexDigit (b % 16)]))

/-- UTF-8 encoding of a character. -/
def charUtf8 (c : Char) : List Nat :=
  let n := c.toNat
  if n < 0x80 then [n]
  else if n < 0x800 then [0xc0 ||| (n >>> 6), 0x80 ||| (n % 64)]
  else if n < 0x10000 then
    [0xe0 ||| (n >>> 12), 0x80 ||| ((n >>> 6) % 64), 0x80 ||| (n % 64)]
  else
    [0xf0 ||| (n >>> 18), 0x80 ||| ((n >>> 12) % 64), 0x80 ||| ((n >>> 6) % 64),
      0x80 ||| (n % 64)]

/-- UTF-8 byte encoding of a string (the frames are UTF-8 JSON text). -/
def utf8Bytes (s : String) : List Nat :=
  s.data.flatMap charUtf8

/-- `generateSignature(channel, event, timestamp)`: HMAC-SHA512, keyed by
the secret credential, of the canonical string
`channel=<channel>&event=<event>&time=<timestamp>`, hex encoded.  The
`apiSecret` field of the class is passed explicitly. -/
def generateSignature (channel event : String) (timestamp : Nat) (apiSecret : String) :
    String :=
  let message := "channel=" ++ channel ++ "&event=" ++ event ++ "&time=" ++ toString timestamp
  hexLower (hmacSha512 (utf8Bytes apiSecret) (utf8Bytes message))

/-- The `auth` object of the subscribe frame. -/
structure AuthObj where
  authMethod : String
  KEY : String
  SIGN : String
  deriving DecidableEq, Repr

/-- The outgoing subscribe frame built by `subscribeToBalances()`. -/
structure SubscribeMsg where
  time : Nat
  channel : String
  event : String
  payload : List String
  auth : AuthObj
  deriving DecidableEq, Repr

/-- `subscribeToBalances()` message construction (the transport send and
connectivity guard aside): channel `spot.balances`, event `subscribe`,
empty payload, and the `api_key` auth object carrying the public
credential in `KEY` and the signature in `SIGN`. -/
def subscribeMessage (apiKey apiSecret : String) (timestamp : Nat) : SubscribeMsg :=
  { time := timestamp
    channel := "spot.balances"
    event := "subscribe"
    payload := []
    auth :=
      { authMethod := "api_key"
        KEY := apiKey
        SIGN := generateSignature "spot.balances" "subscribe" timestamp apiSecret } }

/-- A pong frame carrying the given correlation id. -/
def pongFrameFor (i : Nat) : Frame :=
  { id := some i, result := some (RVal.s "pong"), error := none
    channel := none, event := none, method := none }

/-- A balance-update frame carrying the given `result` payload. -/
def balanceUpdateFrame (r : Option RVal) : Frame :=
  { id := none, result := r, error := none
    channel := some "spot.balances", event := some "update", method := none }

/-- The reconnect machinery is terminally stopped: counter pinned at the
maximum, not reconnecting, no timer armed.  This is exactly the shape
`stopReconnection` leaves behind. -/
def stoppedState (s : ClientState) : Prop :=
  s.reconnectAttempts = maxReconnectAttempts ∧
    s.isReconnecting = false ∧ s.reconnectTimer = none

/-- Invariant of the reconnect fields over runs without a successful
open: the counter is 0, or exactly one attempt has been scheduled and the
in-progress flag is still set, or the machinery is terminally stopped. -/
def reconnInv (s : ClientState) : Prop :=
  s.reconnectAttempts = 0 ∨
    (s.reconnectAttempts = 1 ∧ s.isReconnecting = true) ∨ stoppedState s

/-- The session state holding a single pending probe, used to exhibit the
pong-resolution value. -/
def c5State : ClientState := { initState with pending := [(1, 100)] }

/-- A session mid-backoff: one attempt scheduled and its timer armed. -/
def midBackoffState : ClientState :=
  { initState with
    reconnectTimer := some 1000
    isReconnecting := true
    reconnectAttempts := 1 }

/-- A fixture balance array holding one USDT entry. -/
def usdtFixture : List BalanceEntry :=
  [{ currency := "USDT", available := some "10.5", locked := some "2.25"
     change_type := none }]

/-!
Supporting lemmas.
-/

/-- A key larger than every key of the table is absent from it. -/
theorem lookupPending_eq_none_of_lt (m : PendingMap) (i : Nat)
    (h : ∀ p ∈ m, p.1 < i) : lookupPending m i = none := by
  induction m with
  | nil => rfl
  | cons p ps ih =>
    have hp : p.1 < i := h p (List.mem_cons_self p ps)
    simp only [lookupPending, Nat.ne_of_lt hp, if_false, if_neg (Nat.ne_of_lt hp)]
    exact ih (fun q hq => h q (List.mem_cons_of_mem p hq))

/-- Erasing one key leaves every other key's binding unchanged. -/
theorem lookupPending_erase_ne (m : PendingMap) (i j : Nat) (h : j ≠ i) :
    lookupPending (erasePending m i) j = lookupPending m j := by
  induction m with
  | nil => rfl
  | cons p ps ih =>
    by_cases hpi : p.1 = i
    · have hpj : ¬ p.1 = j := fun hc => h (by rw [← hc, hpi])
      simp only [erasePending, lookupPending, if_pos hpi, if_neg hpj]
      exact ih
    · by_cases hpj : p.1 = j
      · simp only [erasePending, lookupPending, if_neg hpi, if_pos hpj]
      · simp only [erasePending, lookupPending, if_neg hpi, if_neg hpj]
        exact ih

set_option maxRecDepth 100000 in
/-- Validation of the SHA-512 embedding on the FIPS 180-4 "abc"
known-answer vector. -/
theorem sha512_abc_vector :
    hexLower (sha512 (utf8Bytes "abc")) =
      "ddaf35a193617abacc417349ae20413112e6fa4e89a97ea20a9eeee64b55d39a2192992a274fc1a836ba3c23a3feebbd454d4423643ce80e2a9ac94fa54ca49f" := by
  decide

set_option maxRecDepth 100000 in
/-- Validation of the HMAC-SHA512 embedding on RFC 4231 test case 2. -/
theorem hmacSha512_rfc4231_case2 :
    hexLower (hmacSha512 (utf8Bytes "Jefe") (utf8Bytes "what do ya want for nothing?")) =
      "164b7a7bfcf819e2e395fbe73b56e0a387bd64222e831fd610270cd7ea2505549758bf75c05a994a6d034f65f8f0e6fdcaeab1a34d4a6b4b636e070a38bce737" := by
  decide

set_option maxRecDepth 100000 in
/-- Deterministic fixture for the subscription signature: a known
channel, event, timestamp and secret reproduce a fixed hex digest. -/
theorem generateSignature_fixture :
    generateSignature "spot.balances" "subscribe" 1700000000 "my_secret" =
      "46d2c4bc1880ce0b1d710ac7b286ea1b29abb9d05d11db5da6bd0a10ec77bd6a0e609db19725ed4c6b1684069a790505898bdbb8b87ccafc090d4375bd1dd163" := by
  decide

/-- `stopReconnection` always leaves the machinery terminally stopped. -/
theorem stopReconnection_stopped (s : ClientState) : stoppedState (stopReconnection s) :=
  ⟨rfl, rfl, rfl⟩

/-- `scheduleReconnect` is the identity once the attempt counter has
reached the maximum. -/
theorem scheduleReconnect_of_max (s : ClientState)
    (h : s.reconnectAttempts ≥ maxReconnectAttempts) : scheduleReconnect s = s := by
  unfold scheduleReconnect
  rw [if_pos (Or.inr h)]

/-- `scheduleReconnect` preserves the terminally stopped state. -/
theorem scheduleReconnect_stopped (t : ClientState) (ht : stoppedState t) :
    stoppedState (scheduleReconnect t) := by
  rw [scheduleReconnect_of_max t (le_of_eq ht.1.symm)]
  exact ht

/-- `handleMessage` either leaves the three reconnect fields untouched or
terminally stops the machinery (the credential-failure subscribe-ack
path). -/
theorem handleMessage_reconn (s : ClientState) (m : Frame) (now : Int) :
    ((handleMessage s m now).1.reconnectAttempts = s.reconnectAttempts ∧
      (handleMessage s m now).1.isReconnecting = s.isReconnecting ∧
      (handleMessage s m now).1.reconnectTimer = s.reconnectTimer) ∨
    stoppedState (handleMessage s m now).1 := by
  unfold handleMessage
  split
  · split
    · exact Or.inl ⟨rfl, rfl, rfl⟩
    · split
      · exact Or.inl ⟨rfl, rfl, rfl⟩
      · exact Or.inl ⟨rfl, rfl, rfl⟩
  · unfold handleUncorrelated
    split
    · exact Or.inl ⟨rfl, rfl, rfl⟩
    · split
      · split
        · split
          · exact Or.inr (stopReconnection_stopped _)
          · exact Or.inl ⟨rfl, rfl, rfl⟩
        · exact Or.inl ⟨rfl, rfl, rfl⟩
      · split
        · exact Or.inl ⟨rfl, rfl, rfl⟩
        · exact Or.inl ⟨rfl, rfl, rfl⟩

/-- Every event except a successful open preserves the terminally
stopped reconnect state. -/
theorem stepR_preserves_stopped (s : ClientState) (e : REv) (he : e.isOpen = false)
    (hs : stoppedState s) : stoppedState (stepR s e) := by
  obtain ⟨h1, h2, h3⟩ := hs
  cases e with
  | frameMsg f now =>
    rcases handleMessage_reconn s f now with ⟨g1, g2, g3⟩ | hstop
    · exact ⟨g1.trans h1, g2.trans h2, g3.trans h3⟩
    · exact hstop
  | transportDrop =>
    simp only [stepR, handleDisconnection, stopIntervals, rejectAllPendingRequests]
    split
    all_goals first
      | exact ⟨h1, h2, h3⟩
      | exact scheduleReconnect_stopped _ ⟨h1, h2, h3⟩
  | connectFail => exact scheduleReconnect_stopped s ⟨h1, h2, h3⟩
  | openOk now => simp [REv.isOpen] at he
  | closeCall => exact ⟨rfl, rfl, rfl⟩
  | pingSend now =>
    simp only [stepR, sendPing]
    split
    · exact ⟨h1, h2, h3⟩
    · exact ⟨h1, h2, h3⟩
  | pongTimerFire =>
    simp only [stepR, pongTimeoutFire]
    split
    · exact ⟨h1, h2, h3⟩
    · exact ⟨h1, h2, h3⟩

/-- A run without a successful open preserves the terminally stopped
reconnect state. -/
theorem runR_preserves_stopped :
    ∀ evs : List REv, (∀ e ∈ evs, e.isOpen = false) →
      ∀ s : ClientState, stoppedState s → stoppedState (runR evs s) := by
  intro evs
  induction evs with
  | nil => exact fun _ _ hs => hs
  | cons e es ih =>
    intro h s hs
    exact ih (fun x hx => h x (List.mem_cons_of_mem e hx)) (stepR s e)
      (stepR_preserves_stopped s e (h e (List.mem_cons_self e es)) hs)

/-- Every event except a successful open preserves the reconnect-field
invariant. -/
theorem stepR_preserves_reconnInv (s : ClientState) (e : REv) (he : e.isOpen = false)
    (hs : reconnInv s) : reconnInv (stepR s e) := by
  have hsched : ∀ t : ClientState, reconnInv t → reconnInv (scheduleReconnect t) := by
    intro t ht
    unfold scheduleReconnect
    split
    · exact ht
    · rename_i hguard
      push_neg at hguard
      rcases ht with h0 | ⟨h1, h2⟩ | ⟨h10, h11, h12⟩
      · exact Or.inr (Or.inl ⟨by simp [h0], rfl⟩)
      · exact absurd h2 hguard.1
      · exact absurd hguard.2 (by simp [h10])
  cases e with
  | frameMsg f now =>
    rcases handleMessage_reconn s f now with ⟨g1, g2, g3⟩ | hstop
    · rcases hs with h0 | ⟨h1, h2⟩ | ⟨h10, h11, h12⟩
      · exact Or.inl (g1.trans h0)
      · exact Or.inr (Or.inl ⟨g1.trans h1, g2.trans h2⟩)
      · exact Or.inr (Or.inr ⟨g1.trans h10, g2.trans h11, g3.trans h12⟩)
    · exact Or.inr (Or.inr hstop)
  | transportDrop =>
    simp only [stepR, handleDisconnection, stopIntervals, rejectAllPendingRequests]
    split
    · exact hsched _ hs
    · exact hs
  | connectFail => exact hsched s hs
  | openOk now => simp [REv.isOpen] at he
  | closeCall => exact Or.inr (Or.inr ⟨rfl, rfl, rfl⟩)
  | pingSend now =>
    simp only [stepR, sendPing]
    split
    · exact hs
    · exact hs
  | pongTimerFire =>
    simp only [stepR, pongTimeoutFire]
    split
    · exact hs
    · exact hs

/-- A run without a successful open preserves the reconnect-field
invariant. -/
theorem runR_preserves_reconnInv :
    ∀ evs : List REv, (∀ e ∈ evs, e.isOpen = false) →
      ∀ s : ClientState, reconnInv s → reconnInv (runR evs s) := by
  intro evs
  induction evs with
  | nil => exact fun _ _ hs => hs
  | cons e es ih =>
    intro h s hs
    exact ih (fun x hx => h x (List.mem_cons_of_mem e hx)) (stepR s e)
      (stepR_preserves_reconnInv s e (h e (List.mem_cons_self e es)) hs)

/-- The reconnect-field invariant holds along every run from the initial
state that contains no successful open. -/
theorem runR_reconnInv (evs : List REv) (h : ∀ e ∈ evs, e.isOpen = false) :
    reconnInv (runR evs initState) :=
  runR_preserves_reconnInv evs h initState (Or.inl rfl)

/-- Unpacking a successful correlator match: the frame carries exactly
that truthy id and the table holds that timestamp under it. -/
theorem matchPending_id (s : ClientState) (m : Frame) (i : Nat) (ts : Int)
    (h : matchPending s m = some (i, ts)) :
    m.id = some i ∧ i ≠ 0 ∧ lookupPending s.pending i = some ts := by
  unfold matchPending truthyId at h
  cases hmid : m.id with
  | none => rw [hmid] at h; simp at h
  | some j =>
    rw [hmid] at h
    by_cases hj : j = 0
    · simp [hj] at h
    · simp only [hj, if_false, reduceIte] at h
      cases hl : lookupPending s.pending j with
      | none => rw [hl] at h; simp at h
      | some t =>
        rw [hl] at h
        simp only [Option.map_some', Option.some.injEq, Prod.mk.injEq] at h
        rcases h with ⟨rfl, rfl⟩
        exact ⟨rfl, hj, hl⟩

/-- Building a successful correlator match. -/
theorem matchPending_eq (s : ClientState) (m : Frame) (i : Nat) (ts : Int)
    (hid : m.id = some i) (hi : i ≠ 0) (hl : lookupPending s.pending i = some ts) :
    matchPending s m = some (i, ts) := by
  unfold matchPending truthyId
  simp [hid, hi, hl]

/-- On an empty pending table, `handleMessage` completes no waiter and
keeps the table empty. -/
theorem handleMessage_empty_pending (s : ClientState) (m : Frame) (now : Int)
    (h : s.pending = []) :
    (handleMessage s m now).1.pending = [] ∧
      (handleMessage s m now).2.completions = [] := by
  have hmp : matchPending s m = none := by
    unfold matchPending truthyId
    cases hmid : m.id with
    | none => rfl
    | some j => by_cases hj : j = 0 <;> simp [hj, h, lookupPending]
  have hred : handleMessage s m now = handleUncorrelated s m := by
    unfold handleMessage
    rw [hmp]
  rw [hred]
  unfold handleUncorrelated
  repeat' split
  all_goals exact ⟨h, rfl⟩

/-- Over any frame sequence from an empty pending table, no waiter is
ever completed and the table stays empty. -/
theorem processFrames_empty_pending (fs : List (Frame × Int)) :
    ∀ s : ClientState, s.pending = [] →
      (processFrames s fs).1.pending = [] ∧ (processFrames s fs).2 = [] := by
  induction fs with
  | nil => exact fun _ h => ⟨h, rfl⟩
  | cons fi fs ih =>
    intro s h
    have h1 := handleMessage_empty_pending s fi.1 fi.2 h
    have h2 := ih (handleMessage s fi.1 fi.2).1 h1.1
    simp only [processFrames]
    exact ⟨h2.1, by simp [h1.2, h2.2]⟩

/-- `scheduleReconnect` never touches the pending table. -/
theorem scheduleReconnect_pending (s : ClientState) :
    (scheduleReconnect s).pending = s.pending := by
  unfold scheduleReconnect
  split <;> rfl

/-- `handleDisconnection` from an empty pending table rejects nobody and
keeps the table empty. -/
theorem handleDisconnection_empty (s : ClientState) (h : s.pending = []) :
    (handleDisconnection s).1.pending = [] ∧ (handleDisconnection s).2 = [] := by
  simp only [handleDisconnection, rejectAllPendingRequests, stopIntervals]
  constructor
  · split
    · rw [scheduleReconnect_pending]
    · rfl
  · show s.pending.map (fun p => (p.1, Completion.rejected ClientError.connectionLost)) = []
    rw [h]
    rfl

/-!
Claim theorems.
-/

/-- C1: the claim states that when no pong answers a `sendPing` within
the 10-second timeout, exactly that request's pending entry is removed
and its waiter rejected with a timeout failure.  The code's timeout
callback instead consults the `requestId` field at fire time — already
incremented past every pending key — so the firing timeout removes no
entry and rejects no waiter: it is inert on every state whose pending
keys all lie below `requestId` (an invariant of the session, since ids
are only ever inserted at the pre-increment `requestId`). -/
theorem C1_pong_timeout_is_inert (s : ClientState)
    (hb : ∀ p ∈ s.pending, p.1 < s.requestId) :
    pongTimeoutFire s = (s, none) := by
  unfold pongTimeoutFire
  rw [lookupPending_eq_none_of_lt s.pending s.requestId hb]
  rfl

/-- Witness for C1 at the concrete failing input: the session connects,
sends one ping (id 1), and the pong timeout fires with no response; the
hypothesis holds, the firing changes nothing and rejects nobody, and the
entry for id 1 is still pending afterwards. -/
theorem C1_pong_timeout_is_inert_witness :
    (∀ p ∈ (sendPing (onOpen initState 50) 100).1.pending,
        p.1 < (sendPing (onOpen initState 50) 100).1.requestId) ∧
    pongTimeoutFire (sendPing (onOpen initState 50) 100).1 =
      ((sendPing (onOpen initState 50) 100).1, none) ∧
    lookupPending (sendPing (onOpen initState 50) 100).1.pending 1 = some 100 :=
  ⟨by decide, C1_pong_timeout_is_inert (sendPing (onOpen initState 50) 100).1 (by decide),
    by decide⟩

/-- C2: in any run from the initial state containing no successful open,
once the reconnect attempt counter has reached `maxReconnectAttempts`,
`scheduleReconnect` leaves the state unchanged (arms no further timer)
and `getReconnectStatus` reports `reconnecting = false` and `attempts =
maxReconnectAttempts`, and both facts persist across every further run
without a successful open. -/
theorem C2_exhaustion_terminal (evs : List REv) (hno : ∀ e ∈ evs, e.isOpen = false)
    (hmax : (runR evs initState).reconnectAttempts = maxReconnectAttempts) :
    ∀ evs' : List REv, (∀ e ∈ evs', e.isOpen = false) →
      scheduleReconnect (runR evs' (runR evs initState)) = runR evs' (runR evs initState) ∧
      getReconnectStatus (runR evs' (runR evs initState)) =
        { attempts := maxReconnectAttempts, maxAttempts := maxReconnectAttempts
          reconnecting := false } := by
  have hstop : stoppedState (runR evs initState) := by
    rcases runR_reconnInv evs hno with h0 | ⟨h1, _⟩ | hst
    · exact absurd (h0.symm.trans hmax) (by decide)
    · exact absurd (h1.symm.trans hmax) (by decide)
    · exact hst
  intro evs' hno'
  have hstop' := runR_preserves_stopped evs' hno' _ hstop
  refine ⟨scheduleReconnect_of_max _ (le_of_eq hstop'.1.symm), ?_⟩
  unfold getReconnectStatus
  rw [hstop'.1, hstop'.2.1]

/-- Witness for C2: a run in which the counter reaches the maximum (the
credential-failure ack pins it there), followed by a transport drop;
no timer is armed and the status reads `attempts = 10`,
`reconnecting = false`. -/
theorem C2_exhaustion_terminal_witness :
    scheduleReconnect
        (runR [REv.transportDrop]
          (runR [REv.frameMsg (subAckErrFrame 1 "bad key") 0] initState)) =
      runR [REv.transportDrop]
        (runR [REv.frameMsg (subAckErrFrame 1 "bad key") 0] initState) ∧
    getReconnectStatus
        (runR [REv.transportDrop]
          (runR [REv.frameMsg (subAckErrFrame 1 "bad key") 0] initState)) =
      { attempts := maxReconnectAttempts, maxAttempts := maxReconnectAttempts
        reconnecting := false } :=
  C2_exhaustion_terminal [REv.frameMsg (subAckErrFrame 1 "bad key") 0] (by decide)
    (by decide) [REv.transportDrop] (by decide)

/-- The credential-failure subscribe ack (`error.code === 1` on the
`spot.balances` subscribe event) drops the authenticated flag and runs
`stopReconnection`. -/
theorem handleMessage_authFatal (s : ClientState) (emsg : String) (now : Int) :
    handleMessage s (subAckErrFrame 1 emsg) now =
      (stopReconnection { s with isAuthenticated := false }, emptyEffects) := rfl

/-- C3: a subscribe-acknowledgement for the balance channel carrying the
credential-failure error code permanently disables reconnection: the
armed reconnect timer (if any) is cancelled at once, and along every
subsequent run without a successful open — in particular across every
transport close or error event — the timer stays disarmed and
`scheduleReconnect` never changes the state. -/
theorem C3_auth_failure_permanent (s : ClientState) (emsg : String) (now : Int)
    (evs' : List REv) (hno : ∀ e ∈ evs', e.isOpen = false) :
    (handleMessage s (subAckErrFrame 1 emsg) now).1.reconnectTimer = none ∧
    (handleMessage s (subAckErrFrame 1 emsg) now).1.isReconnecting = false ∧
    (runR evs' (handleMessage s (subAckErrFrame 1 emsg) now).1).reconnectTimer = none ∧
    (runR evs' (handleMessage s (subAckErrFrame 1 emsg) now).1).isReconnecting = false ∧
    scheduleReconnect (runR evs' (handleMessage s (subAckErrFrame 1 emsg) now).1) =
      runR evs' (handleMessage s (subAckErrFrame 1 emsg) now).1 := by
  have hstop : stoppedState (handleMessage s (subAckErrFrame 1 emsg) now).1 := by
    rw [handleMessage_authFatal]
    exact stopReconnection_stopped _
  have hstop' := runR_preserves_stopped evs' hno _ hstop
  exact ⟨hstop.2.2, hstop.2.1, hstop'.2.2, hstop'.2.1,
    scheduleReconnect_of_max _ (le_of_eq hstop'.1.symm)⟩

/-- Witness for C3: from a session with a reconnect timer armed, the
credential-failure ack cancels it, and two subsequent transport drops
schedule nothing. -/
theorem C3_auth_failure_permanent_witness :
    (handleMessage midBackoffState (subAckErrFrame 1 "invalid key") 0).1.reconnectTimer =
      none ∧
    (handleMessage midBackoffState (subAckErrFrame 1 "invalid key") 0).1.isReconnecting =
      false ∧
    (runR [REv.transportDrop, REv.transportDrop]
        (handleMessage midBackoffState (subAckErrFrame 1 "invalid key") 0).1).reconnectTimer =
      none ∧
    (runR [REv.transportDrop, REv.transportDrop]
        (handleMessage midBackoffState (subAckErrFrame 1 "invalid key") 0).1).isReconnecting =
      false ∧
    scheduleReconnect
        (runR [REv.transportDrop, REv.transportDrop]
          (handleMessage midBackoffState (subAckErrFrame 1 "invalid key") 0).1) =
      runR [REv.transportDrop, REv.transportDrop]
        (handleMessage midBackoffState (subAckErrFrame 1 "invalid key") 0).1 :=
  C3_auth_failure_permanent midBackoffState "invalid key" 0
    [REv.transportDrop, REv.transportDrop] (by decide)

/-- C4: when the k-th reconnect attempt is scheduled (counter `k - 1`
before the call, incremented to `k` by it, `1 ≤ k ≤ 10`), the armed
delay is exactly `min(1000 * 1.5^(k-1), 30000)` milliseconds. -/
theorem C4_backoff_delay (s : ClientState) (k : Nat) (hk1 : 1 ≤ k)
    (hk2 : k ≤ maxReconnectAttempts) (ha : s.reconnectAttempts = k - 1)
    (hr : s.isReconnecting = false) :
    (scheduleReconnect s).reconnectAttempts = k ∧
    (scheduleReconnect s).reconnectTimer =
      some (min ((1000 : ℚ) * (3 / 2) ^ (k - 1)) 30000) := by
  have hguard : ¬(s.isReconnecting = true ∨ s.reconnectAttempts ≥ maxReconnectAttempts) := by
    push_neg
    refine ⟨by simp [hr], ?_⟩
    rw [ha]
    simp only [maxReconnectAttempts] at hk2 ⊢
    omega
  unfold scheduleReconnect
  rw [if_neg hguard]
  refine ⟨?_, ?_⟩
  · show s.reconnectAttempts + 1 = k
    omega
  · show some (min (reconnectDelay * (3 / 2 : ℚ) ^ (s.reconnectAttempts + 1 - 1))
        maxReconnectDelay) = some (min ((1000 : ℚ) * (3 / 2) ^ (k - 1)) 30000)
    rw [ha]
    simp [reconnectDelay, maxReconnectDelay]

/-- Witness for C4 at the first attempt: from the fresh state the armed
delay is `min(1000 * 1.5^0, 30000)` (that is, 1000 ms). -/
theorem C4_backoff_delay_witness :
    (scheduleReconnect initState).reconnectAttempts = 1 ∧
    (scheduleReconnect initState).reconnectTimer =
      some (min ((1000 : ℚ) * (3 / 2) ^ (1 - 1)) 30000) :=
  C4_backoff_delay initState 1 (by decide) (by decide) rfl rfl

/-- C5 counterexample: the claim as stated says a frame whose id matches
a pending entry resolves the waiter with that frame's `result` on
success, but a pong frame (`result: "pong"`) with a matching id resolves
the waiter with the `(latency, timestamp)` record instead of the frame's
result. -/
theorem C5_counterexample_pong_value :
    (handleMessage c5State (pongFrameFor 1) 150).2.completions =
      [(1, Completion.resolved (ResolveVal.latencyRec 50 150))] ∧
    (handleMessage c5State (pongFrameFor 1) 150).2.completions ≠
      [(1, Completion.resolved (ResolveVal.res (pongFrameFor 1).result))] := by
  decide

/-- C5 (amended): for every inbound frame whose id matches a pending
entry, `handleMessage` completes exactly the waiter registered under
that id — resolving with the `(latency, now)` record when the frame's
result is the probe acknowledgement `"pong"`, otherwise rejecting with
an API error carrying the exchange's error message when the frame
carries an error object, and resolving with the frame's result when it
does not — and removes that entry in every case while leaving every
other entry's binding unchanged; and across any sequence of frames,
every completion emitted is keyed by the id of the frame that caused it
(no cross-resolution). -/
theorem C5_correlator_exact (s : ClientState) (m : Frame) (i : Nat) (ts : Int)
    (now : Int) (hm : matchPending s m = some (i, ts)) :
    (handleMessage s m now).1.pending = erasePending s.pending i ∧
    (m.result = some (RVal.s "pong") →
      (handleMessage s m now).2.completions =
        [(i, Completion.resolved (ResolveVal.latencyRec (now - ts) now))]) ∧
    (m.result ≠ some (RVal.s "pong") → ∀ e, m.error = some e →
      (handleMessage s m now).2.completions =
        [(i, Completion.rejected (ClientError.apiError e.message))]) ∧
    (m.result ≠ some (RVal.s "pong") → m.error = none →
      (handleMessage s m now).2.completions =
        [(i, Completion.resolved (ResolveVal.res m.result))]) ∧
    (∀ j, j ≠ i →
      lookupPending (handleMessage s m now).1.pending j = lookupPending s.pending j) ∧
    (∀ fs : List (Frame × Int), ∀ t : ClientState,
      ∀ p ∈ (processFrames t fs).2, ∃ fi ∈ fs, fi.1.id = some p.1) := by
  have hpend : (handleMessage s m now).1.pending = erasePending s.pending i := by
    unfold handleMessage
    simp only [hm]
    split
    · rfl
    · cases m.error <;> rfl
  refine ⟨hpend, ?_, ?_, ?_, ?_, ?_⟩
  · intro hres
    unfold handleMessage
    simp only [hm]
    rw [if_pos hres]
  · intro hres e herr
    unfold handleMessage
    simp only [hm]
    rw [if_neg hres]
    simp only [herr]
  · intro hres herr
    unfold handleMessage
    simp only [hm]
    rw [if_neg hres]
    simp only [herr]
  · intro j hj
    rw [hpend]
    exact lookupPending_erase_ne s.pending i j hj
  · intro fs
    induction fs with
    | nil => intro t p hp; simp [processFrames] at hp
    | cons fi fs ih =>
      intro t p hp
      simp only [processFrames, List.mem_append] at hp
      rcases hp with hp | hp
      · refine ⟨fi, List.mem_cons_self fi fs, ?_⟩
        have hone : ∀ q ∈ (handleMessage t fi.1 fi.2).2.completions, fi.1.id = some q.1 := by
          intro q hq
          unfold handleMessage at hq
          cases hmq : matchPending t fi.1 with
          | some r =>
            simp only [hmq] at hq
            have hfid : fi.1.id = some r.1 :=
              (matchPending_id t fi.1 r.1 r.2 (by rw [hmq])).1
            split at hq
            · simp at hq
              subst hq
              exact hfid
            · cases herr : fi.1.error with
              | some e =>
                simp only [herr] at hq
                simp at hq
                subst hq
                exact hfid
              | none =>
                simp only [herr] at hq
                simp at hq
                subst hq
                exact hfid
          | none =>
            simp only [hmq] at hq
            unfold handleUncorrelated at hq
            repeat' split at hq
            all_goals simp [emptyEffects] at hq
        exact hone p hp
      · obtain ⟨gi, hgi, hgid⟩ := ih (handleMessage t fi.1 fi.2).1 p hp
        exact ⟨gi, List.mem_cons_of_mem fi hgi, hgid⟩

/-- Witness for C5 (amended) at a concrete error response: frame id 2
matches the single pending entry and is rejected with the exchange's
message; the entry is removed. -/
theorem C5_correlator_exact_witness :
    (handleMessage { initState with pending := [(2, 10)] }
        { id := some 2, result := none, error := some { code := 5, message := "oops" }
          channel := none, event := none, method := none } 42).1.pending =
      erasePending [(2, 10)] 2 ∧
    (handleMessage { initState with pending := [(2, 10)] }
        { id := some 2, result := none, error := some { code := 5, message := "oops" }
          channel := none, event := none, method := none } 42).2.completions =
      [(2, Completion.rejected (ClientError.apiError "oops"))] := by
  have h := C5_correlator_exact { initState with pending := [(2, 10)] }
    { id := some 2, result := none, error := some { code := 5, message := "oops" }
      channel := none, event := none, method := none } 2 10 42 (by decide)
  exact ⟨h.1, h.2.2.1 (by decide) { code := 5, message := "oops" } rfl⟩

/-- C6: by the time `close()` resolves, the pending table is empty and
every request that was pending at the call has been rejected with the
closed-by-caller error; and from the moment close is requested no
inbound frame can complete (in particular successfully resolve) any
waiter. -/
theorem C6_close_rejects_all (s : ClientState) :
    (closeRequest s).1.pending = [] ∧
    (closeRequest s).2 =
      s.pending.map (fun p => (p.1, Completion.rejected ClientError.closedByUser)) ∧
    (closeResolved s).1.pending = [] ∧
    (closeResolved s).2 =
      s.pending.map (fun p => (p.1, Completion.rejected ClientError.closedByUser)) ∧
    ∀ fs : List (Frame × Int), (processFrames (closeRequest s).1 fs).2 = [] := by
  have hd := handleDisconnection_empty (closeRequest s).1 rfl
  refine ⟨rfl, rfl, hd.1, ?_, fun fs => (processFrames_empty_pending fs _ rfl).2⟩
  show (closeRequest s).2 ++ (handleDisconnection (closeRequest s).1).2 = _
  rw [hd.2, List.append_nil]
  rfl

/-- C7: a probe whose matching pong arrives resolves its waiter with
latency equal to the response time minus the stored issue timestamp —
a probe issued at time `T` and answered at `T + L` reports exactly `L` —
and with a monotone clock the reported latency is never negative. -/
theorem C7_pong_latency (s : ClientState) (i : Nat) (T now : Int)
    (hi : i ≠ 0) (hl : lookupPending s.pending i = some T) (hle : T ≤ now) :
    (handleMessage s (pongFrameFor i) now).2.completions =
      [(i, Completion.resolved (ResolveVal.latencyRec (now - T) now))] ∧
    0 ≤ now - T ∧
    ∀ L : Int, 0 ≤ L →
      (handleMessage s (pongFrameFor i) (T + L)).2.completions =
        [(i, Completion.resolved (ResolveVal.latencyRec L (T + L)))] := by
  have hm : matchPending s (pongFrameFor i) = some (i, T) :=
    matchPending_eq s (pongFrameFor i) i T rfl hi hl
  have hmain : ∀ t : Int, (handleMessage s (pongFrameFor i) t).2.completions =
      [(i, Completion.resolved (ResolveVal.latencyRec (t - T) t))] := by
    intro t
    unfold handleMessage
    simp only [hm]
    rw [if_pos (show (pongFrameFor i).result = some (RVal.s "pong") from rfl)]
  refine ⟨hmain now, by omega, fun L hL => ?_⟩
  rw [hmain (T + L), add_sub_cancel_left]

/-- Witness for C7: a probe stored at time 100 answered at 107 reports
latency exactly 7, which is non-negative. -/
theorem C7_pong_latency_witness :
    (handleMessage { initState with pending := [(3, 100)] } (pongFrameFor 3)
        107).2.completions =
      [(3, Completion.resolved (ResolveVal.latencyRec (107 - 100) 107))] ∧
    (0 : Int) ≤ 107 - 100 :=
  have h := C7_pong_latency { initState with pending := [(3, 100)] } 3 100 107
    (by decide) (by decide) (by decide)
  ⟨h.1, h.2.1⟩

/-- Every value below 16 maps to a lowercase hex digit character. -/
theorem hexDigit_mem : ∀ d < 16,
    hexDigit d ∈ hexAlphabet := by
  decide

/-- Every character of a lowercase hex encoding is a lowercase hex
digit. -/
theorem hexLower_chars (bs : List Nat) :
    ∀ c ∈ (hexLower bs).data,
      c ∈ hexAlphabet := by
  intro c hc
  unfold hexLower at hc
  rw [show (String.mk (bs.flatMap fun b => [hexDigit (b / 16 % 16), hexDigit (b % 16)])).data
      = bs.flatMap (fun b => [hexDigit (b / 16 % 16), hexDigit (b % 16)]) from rfl] at hc
  rw [List.mem_flatMap] at hc
  obtain ⟨b, _, hcb⟩ := hc
  simp only [List.mem_cons, List.not_mem_nil, or_false] at hcb
  rcases hcb with rfl | rfl
  · exact hexDigit_mem _ (Nat.mod_lt _ (by norm_num))
  · exact hexDigit_mem _ (Nat.mod_lt _ (by norm_num))

/-- C8: the subscription signature is the lowercase hex encoding of
HMAC-SHA512, keyed by the secret credential, of exactly the string
`channel=<channel>&event=<event>&time=<timestamp>`; the subscribe frame
carries it in `SIGN` with the public credential in `KEY` under the
`api_key` auth method; the computation is a pure function of its inputs
(deterministic), and every digest character is a lowercase hex digit. -/
theorem C8_subscription_signature (channel event : String) (t : Nat)
    (key secret : String) :
    generateSignature channel event t secret =
      hexLower (hmacSha512 (utf8Bytes secret)
        (utf8Bytes ("channel=" ++ channel ++ "&event=" ++ event ++ "&time=" ++
          toString t))) ∧
    (subscribeMessage key secret t).auth.SIGN =
      generateSignature "spot.balances" "subscribe" t secret ∧
    (subscribeMessage key secret t).auth.KEY = key ∧
    (subscribeMessage key secret t).auth.authMethod = "api_key" ∧
    generateSignature channel event t secret =
      generateSignature channel event t secret ∧
    ∀ c ∈ (generateSignature channel event t secret).data,
      c ∈ hexAlphabet :=
  ⟨rfl, rfl, rfl, rfl, rfl, hexLower_chars _⟩

/-- C9: a balance-update array with a USDT entry reports available and
locked as the numeric parses of that entry's string fields and total as
their sum; an array without a USDT entry yields the non-error not-found
observation listing the currencies; in both cases the dispatcher leaves
the session state unchanged and completes no waiter. -/
theorem C9_balance_update (xs : List BalanceEntry) (e : BalanceEntry) (a l : ℚ)
    (hfind : xs.find? (fun item => item.currency = "USDT") = some e)
    (ha : parseDecimal (fieldOr0 e.available) = some a)
    (hloc : parseDecimal (fieldOr0 e.locked) = some l) :
    handleBalanceUpdate (some (RVal.balanceArr xs)) =
      BalanceReport.usdtFound (some a) (some l) (some (a + l)) e.change_type ∧
    (∀ ys : List BalanceEntry, (∀ y ∈ ys, y.currency ≠ "USDT") →
      handleBalanceUpdate (some (RVal.balanceArr ys)) =
        BalanceReport.usdtNotFound (ys.map (fun item => item.currency))) ∧
    ∀ (s : ClientState) (r : Option RVal) (now : Int),
      (handleMessage s (balanceUpdateFrame r) now).1 = s ∧
      (handleMessage s (balanceUpdateFrame r) now).2.balanceReport =
        some (handleBalanceUpdate r) ∧
      (handleMessage s (balanceUpdateFrame r) now).2.completions = [] := by
  refine ⟨?_, ?_, ?_⟩
  · unfold handleBalanceUpdate
    simp only [hfind, ha, hloc]
  · intro ys hys
    unfold handleBalanceUpdate
    have hnone : ys.find? (fun item => item.currency = "USDT") = none :=
      List.find?_eq_none.mpr (by intro y hy; simpa using hys y hy)
    simp only [hnone]
  · intro s r now
    exact ⟨rfl, rfl, rfl⟩

/-- The decimal parse of the fixture's `available` field. -/
theorem parseDecimal_fixture_available : parseDecimal "10.5" = some (21 / 2 : ℚ) := by
  show some ((1 : ℚ) * ((10 : ℚ) + (5 : ℚ) / (10 : ℚ) ^ (1 : Nat))) = some (21 / 2 : ℚ)
  norm_num

/-- The decimal parse of the fixture's `locked` field. -/
theorem parseDecimal_fixture_locked : parseDecimal "2.25" = some (9 / 4 : ℚ) := by
  show some ((1 : ℚ) * ((2 : ℚ) + (25 : ℚ) / (10 : ℚ) ^ (2 : Nat))) = some (9 / 4 : ℚ)
  norm_num

/-- Witness for C9 at the fixture array: available 10.5, locked 2.25,
total 21/2 + 9/4 = 51/4 = 12.75, no change type. -/
theorem C9_balance_update_witness :
    handleBalanceUpdate (some (RVal.balanceArr usdtFixture)) =
      BalanceReport.usdtFound (some (21 / 2 : ℚ)) (some (9 / 4 : ℚ))
        (some ((21 : ℚ) / 2 + 9 / 4)) none ∧
    (21 : ℚ) / 2 + 9 / 4 = 51 / 4 :=
  ⟨(C9_balance_update usdtFixture
      { currency := "USDT", available := some "10.5", locked := some "2.25"
        change_type := none } (21 / 2) (9 / 4) (by decide) parseDecimal_fixture_available
      parseDecimal_fixture_locked).1,
    by norm_num⟩

/-- C10 (implicit): a credential-failure subscribe ack pins the attempt
counter at the maximum, so from any prior state — in particular one in
which no reconnect attempt was ever made — `getReconnectStatus`
thereafter reports `attempts = 10` and `reconnecting = false`, across
every further run without a successful open: through the status query
this is indistinguishable from genuine retry exhaustion. -/
theorem C10_auth_failure_status (s : ClientState) (emsg : String) (now : Int)
    (evs' : List REv) (hno : ∀ e ∈ evs', e.isOpen = false) :
    getReconnectStatus (handleMessage s (subAckErrFrame 1 emsg) now).1 =
      { attempts := maxReconnectAttempts, maxAttempts := maxReconnectAttempts
        reconnecting := false } ∧
    getReconnectStatus (runR evs' (handleMessage s (subAckErrFrame 1 emsg) now).1) =
      { attempts := maxReconnectAttempts, maxAttempts := maxReconnectAttempts
        reconnecting := false } := by
  have hstop : stoppedState (handleMessage s (subAckErrFrame 1 emsg) now).1 := by
    rw [handleMessage_authFatal]
    exact stopReconnection_stopped _
  have hstop' := runR_preserves_stopped evs' hno _ hstop
  constructor
  · unfold getReconnectStatus
    rw [hstop.1, hstop.2.1]
  · unfold getReconnectStatus
    rw [hstop'.1, hstop'.2.1]

/-- Witness for C10 from the fresh session, in which no reconnect
attempt was ever made (counter 0): after the credential-failure ack and
a further transport drop the status reads `attempts = 10`,
`reconnecting = false`. -/
theorem C10_auth_failure_status_witness :
    initState.reconnectAttempts = 0 ∧
    getReconnectStatus (handleMessage initState (subAckErrFrame 1 "denied") 0).1 =
      { attempts := maxReconnectAttempts, maxAttempts := maxReconnectAttempts
        reconnecting := false } ∧
    getReconnectStatus
        (runR [REv.transportDrop]
          (handleMessage initState (subAckErrFrame 1 "denied") 0).1) =
      { attempts := maxReconnectAttempts, maxAttempts := maxReconnectAttempts
        reconnecting := false } :=
  have h := C10_auth_failure_status initState "denied" 0 [REv.transportDrop] (by decide)
  ⟨rfl, h.1, h.2⟩

end DTrader
